import Mathlib

/-!
Verification development for the tap-activeants repository (tap_ants2).

We embed the Python source shallowly:

* JSON / Python values are modelled by the inductive `JVal`; Python dicts
  are association lists of string keys (first occurrence wins on lookup,
  matching dict semantics since parsed JSON objects have unique keys).
* Python truthiness is `truthy`; `dict.get` is `pyGet` (raising
  AttributeError on non-dicts) and `pyGetD` for the two-argument form.
* HTTP traffic is modelled by a `World` function from structured requests
  to responses; the functions under verification return, besides their
  result, the ordered list of requests they issued.
* Exceptions are modelled with `Except PyErr`: `PyErr.http s` is a
  `requests.HTTPError` raised by `raise_for_status` on status `s`,
  `PyErr.attrErr` an AttributeError, `PyErr.typeErr` a TypeError.
-/

/-- JSON / Python values as delivered by `response.json()`. -/
inductive JVal where
  | jnull
  | jbool (b : Bool)
  | jint (n : Int)
  | jstr (s : String)
  | jarr (elems : List JVal)
  | jobj (fields : List (String × JVal))

/-- Python truthiness of a value (`if x:`). -/
def truthy : JVal → Bool
  | .jnull => false
  | .jbool b => b
  | .jint n => !(n == 0)
  | .jstr s => !(s == "")
  | .jarr elems => !elems.isEmpty
  | .jobj fields => !fields.isEmpty

/-- First binding of a key in an association list (Python dicts have unique
keys, so first-match lookup is dict lookup). -/
def lookupKV : List (String × JVal) → String → Option JVal
  | [], _ => none
  | (k, v) :: rest, key => if k == key then some v else lookupKV rest key

/-- Errors raised by the modelled Python code. -/
inductive PyErr where
  | http (status : Nat)
  | attrErr
  | typeErr
deriving DecidableEq

/-- Python `d.get(key)`: `none` when the key is absent, AttributeError when
`d` is not a dict. A present key maps to its stored value, even `jnull`. -/
def pyGet (v : JVal) (key : String) : Except PyErr (Option JVal) :=
  match v with
  | .jobj fields => .ok (lookupKV fields key)
  | _ => .error .attrErr

/-- Python `d.get(key, default)`: the default is used only when the key is
absent; a stored `null` is returned as-is. -/
def pyGetD (v : JVal) (key : String) (dflt : JVal) : Except PyErr JVal :=
  match v with
  | .jobj fields => .ok ((lookupKV fields key).getD dflt)
  | _ => .error .attrErr

/-- Python iteration (`list(x)` / `for y in x`): lists iterate elements,
strings iterate characters, dicts iterate keys; other values raise
TypeError. -/
def pyIter : JVal → Except PyErr (List JVal)
  | .jarr elems => .ok elems
  | .jstr s => .ok (s.data.map (fun c => .jstr (String.mk [c])))
  | .jobj fields => .ok (fields.map (fun p => .jstr p.1))
  | _ => .error .typeErr

/-!
## create_csv.flatten_dict

Source (create_csv.py, lines 17-26): iterates `d.items()`; for a
MutableMapping value recurses with the extended dotted key and extends with
the nested result converted through `dict(...)`; otherwise appends the pair;
finally wraps the accumulated pairs in `dict(items)`.
-/

/-- Python `dict` update semantics for `dict(pairs)`: a repeated key keeps
its first position but takes the last value. -/
def dict_insert (m : List (String × JVal)) (k : String) (v : JVal) :
    List (String × JVal) :=
  if m.any (fun p => p.1 == k) then
    m.map (fun p => if p.1 == k then (k, v) else p)
  else m ++ [(k, v)]

/-- Python `dict(pairs)` built left to right. -/
def dict_of (l : List (String × JVal)) : List (String × JVal) :=
  l.foldl (fun m p => dict_insert m p.1 p.2) []

/-- Body of the `for k, v in d.items()` loop of `flatten_dict`, producing
the `items` list; nested mappings recurse with the dotted key and are
passed through `dict(...)` (the nested call returns a dict whose `.items()`
are extended onto the accumulator). Nested non-mapping values are leaves
and never raise. -/
def flatten_items : List (String × JVal) → String → String → List (String × JVal)
  | [], _, _ => []
  | (k, .jobj fields) :: rest, parent_key, sep =>
    let new_key := if parent_key == "" then k else parent_key ++ sep ++ k
    dict_of (flatten_items fields new_key sep) ++ flatten_items rest parent_key sep
  | (k, v) :: rest, parent_key, sep =>
    let new_key := if parent_key == "" then k else parent_key ++ sep ++ k
    (new_key, v) :: flatten_items rest parent_key sep

/-- `flatten_dict(d)` with the default `parent_key=''`, `sep='.'`:
`d.items()` raises AttributeError when `d` is not a mapping; otherwise the
accumulated items are wrapped in `dict(...)`. -/
def flatten_dict (d : JVal) : Except PyErr (List (String × JVal)) :=
  match d with
  | .jobj fields => .ok (dict_of (flatten_items fields "" "."))
  | _ => .error .attrErr

/-- Boolean test whether a value is a mapping. -/
def JVal.isObj : JVal → Bool
  | .jobj _ => true
  | _ => false

/-!
## HTTP model

Requests are kept structured: `getOrderDetail id` stands for
`GET base/v3/orders/str(id)` built by the f-string of streams.py line 110,
`getOrderItem id` for `GET base/v3/orderitems/str(id)` (line 157),
`getOrders` / `getProducts` for the collection paths of client.py. A
response carries the HTTP status and the value of the JSON body under the
key `data` (`none` when the body has no such key; `some .jnull` when the
key is explicitly null).
-/

/-- Structured requests issued by the streams. -/
inductive Request where
  | getProducts
  | getOrders
  | getOrderDetail (id : JVal)
  | getOrderItem (id : JVal)

/-- Response: HTTP status plus the body's `data` field. -/
structure HttpResponse where
  status : Nat
  data : Option JVal

/-- The remote API: what each request would return. -/
def World : Type := Request → HttpResponse

/-- Test for a 2xx success status. Used only to state hypotheses that
confine responses to the success region; it is not the raise predicate. -/
def is2xx (s : Nat) : Bool := decide (200 ≤ s) && decide (s < 300)

/-- Predicate of `requests.Response.raise_for_status`: an HTTPError is
raised exactly for client-error (4xx) and server-error (5xx) statuses,
400–599. Every other status — 1xx, 2xx, 3xx and non-standard statuses of
600 and above — passes through without raising. -/
def http_error_status (s : Nat) : Bool := decide (400 ≤ s) && decide (s < 600)

/-- A 2xx status is outside the raising range of `raise_for_status`. -/
theorem http_error_status_of_is2xx {s : Nat} (h : is2xx s = true) :
    http_error_status s = false := by
  simp only [is2xx, Bool.and_eq_true, decide_eq_true_eq] at h
  simp only [http_error_status, Bool.and_eq_false_iff, decide_eq_false_iff_not,
    not_le, not_lt]
  omega

/-!
## client.ActiveAntsStream.get_records

Source (client.py, lines 17-23): GET the stream URL, `raise_for_status`,
then return `response.json().get('data', [])`.
-/

/-- `ActiveAntsStream.get_records`: raises HTTPError on a 4xx/5xx status,
otherwise returns the raw `data` value, defaulting to an empty list only
when the key is absent. -/
def ActiveAntsStream_get_records (w : World) (req : Request) : Except PyErr JVal :=
  let r := w req
  if http_error_status r.status then .error (.http r.status)
  else .ok (r.data.getD (.jarr []))

/-- Unwrapping used by the single-entity fetches (streams.py lines 114 and
161, tap.py line 157): `response.json().get('data', \x7b\x7d)`. -/
def dataOrEmptyObj (r : HttpResponse) : JVal := r.data.getD (.jobj [])

/-!
## streams.OrderDetailsStream.get_records

Source (streams.py, lines 102-117): materialize
`list(orders_stream.get_records(context))`, then for each order take
`order.get("id")`; when truthy, GET `/v3/orders/id`, `raise_for_status`,
unwrap `data` with default dict, append. The request trace is returned
alongside the result.
-/

/-- Loop body of `OrderDetailsStream.get_records` over the materialized
orders list, paired with the HTTP requests it issues in order. -/
def OrderDetailsStream_loop (w : World) : List JVal → Except PyErr (List JVal) × List Request
  | [] => (.ok [], [])
  | o :: rest =>
    match o with
    | .jobj fields =>
      match lookupKV fields "id" with
      | some idv =>
        if truthy idv then
          let r := w (.getOrderDetail idv)
          if http_error_status r.status then
            (.error (.http r.status), [.getOrderDetail idv])
          else
            let p := OrderDetailsStream_loop w rest
            (p.1.map (fun ds => dataOrEmptyObj r :: ds), .getOrderDetail idv :: p.2)
        else OrderDetailsStream_loop w rest
      | none => OrderDetailsStream_loop w rest
    | _ => (.error .attrErr, [])

/-- `OrderDetailsStream.get_records`: fetch the orders collection first
(`list(...)` forces it in full), then run the per-order loop. -/
def OrderDetailsStream_get_records (w : World) : Except PyErr (List JVal) × List Request :=
  match ActiveAntsStream_get_records w .getOrders with
  | .error e => (.error e, [.getOrders])
  | .ok v =>
    match pyIter v with
    | .error e => (.error e, [.getOrders])
    | .ok orders =>
      let p := OrderDetailsStream_loop w orders
      (p.1, .getOrders :: p.2)

/-!
## streams.OrderItemsStream.get_records

Source (streams.py, lines 147-164): materialize the order_details records,
then for each detail read
`order_detail.get("relationships", \x7b\x7d).get("orderItems", \x7b\x7d).get("data", [])`
and loop over the referenced items; for each item with truthy
`item.get("id")` GET `/v3/orderitems/id` and append the unwrapped data.
-/

/-- The nested reference extraction of streams.py line 153, iterated by the
inner `for`. -/
def orderItemRefs (d : JVal) : Except PyErr (List JVal) := do
  let rels ← pyGetD d "relationships" (.jobj [])
  let oi ← pyGetD rels "orderItems" (.jobj [])
  let dat ← pyGetD oi "data" (.jarr [])
  pyIter dat

/-- Inner loop of `OrderItemsStream.get_records` over one detail record's
item references. -/
def OrderItemsStream_inner (w : World) : List JVal → Except PyErr (List JVal) × List Request
  | [] => (.ok [], [])
  | item :: rest =>
    match item with
    | .jobj fields =>
      match lookupKV fields "id" with
      | some idv =>
        if truthy idv then
          let r := w (.getOrderItem idv)
          if http_error_status r.status then
            (.error (.http r.status), [.getOrderItem idv])
          else
            let p := OrderItemsStream_inner w rest
            (p.1.map (fun ds => dataOrEmptyObj r :: ds), .getOrderItem idv :: p.2)
        else OrderItemsStream_inner w rest
      | none => OrderItemsStream_inner w rest
    | _ => (.error .attrErr, [])

/-- Outer loop of `OrderItemsStream.get_records` over the materialized
order_details records. -/
def OrderItemsStream_loop (w : World) : List JVal → Except PyErr (List JVal) × List Request
  | [] => (.ok [], [])
  | d :: rest =>
    match orderItemRefs d with
    | .error e => (.error e, [])
    | .ok refs =>
      let p := OrderItemsStream_inner w refs
      match p.1 with
      | .error e => (.error e, p.2)
      | .ok rs =>
        let q := OrderItemsStream_loop w rest
        (q.1.map (fun ds => rs ++ ds), p.2 ++ q.2)

/-- `OrderItemsStream.get_records`: materialize the order_details records
(which themselves materialize orders first), then run the item loop. -/
def OrderItemsStream_get_records (w : World) : Except PyErr (List JVal) × List Request :=
  match OrderDetailsStream_get_records w with
  | (.error e, tr) => (.error e, tr)
  | (.ok details, tr) =>
    let p := OrderItemsStream_loop w details
    (p.1, tr ++ p.2)

/-!
## tap.TapAnts2.get_token

Source (tap.py, lines 45-60): `if not TapAnts2._token:` POST to
`api_url/token` with the password grant, `raise_for_status`, then cache
`response.json().get("access_token")` in the class variable; finally return
the cached value. The token endpoint is modelled by the sequence of
responses to successive POSTs; the tap state is the class variable plus the
number of POSTs performed so far.
-/

/-- Response of the token endpoint: HTTP status plus the body's
`access_token` and `expires_in` fields (`none` when absent). -/
structure TokenResponse where
  status : Nat
  access_token : Option String
  expires_in : Option Int
deriving DecidableEq

/-- State of `TapAnts2`: the cached class variable `_token` and the count
of token-exchange POSTs issued so far. -/
structure TapState where
  token : Option String
  posts : Nat
deriving DecidableEq

/-- Python truthiness of the cached `_token` value: `None` and the empty
string are falsy. -/
def truthyTok : Option String → Bool
  | none => false
  | some s => !(s == "")

/-- `TapAnts2.get_token`: returns the cached token when truthy; otherwise
performs one exchange POST, raising HTTPError on a 4xx/5xx status (leaving
the cache unchanged), else caching and returning the response's
`access_token` — even when that field is absent (`none`). -/
def get_token (resp : Nat → TokenResponse) (s : TapState) :
    Except Nat (Option String) × TapState :=
  if truthyTok s.token then (.ok s.token, s)
  else
    let r := resp s.posts
    if http_error_status r.status then (.error r.status, ⟨s.token, s.posts + 1⟩)
    else (.ok r.access_token, ⟨r.access_token, s.posts + 1⟩)

/-- A sequence of `n` successive calls to `get_token`, collecting each
call's outcome and threading the class-variable state. -/
def get_token_calls (resp : Nat → TokenResponse) (s : TapState) :
    Nat → List (Except Nat (Option String)) × TapState
  | 0 => ([], s)
  | n + 1 =>
    let p := get_token resp s
    let q := get_token_calls resp p.2 n
    (p.1 :: q.1, q.2)

/-!
## create_csv token flow

Source (create_csv.py): `is_token_valid` (lines 113-115) compares the
stored expiry with the current time; the `__main__` block (lines 117-127)
reuses the stored token when present and valid, otherwise calls the
module-level `get_token` (lines 95-111), which performs exactly one
exchange POST. Timestamps are modelled as integers.
-/

/-- `create_csv.is_token_valid`: the stored expiration instant is strictly
after now. -/
def is_token_valid (expiration_time now : Int) : Bool :=
  decide (now < expiration_time)

/-- Module-level `create_csv.get_token`: always one POST; raises HTTPError
on a 4xx/5xx status, else returns the body's `access_token` and
`expires_in`. The second component counts exchange POSTs issued. -/
def csv_get_token (r : TokenResponse) :
    Except Nat (Option String × Option Int) × Nat :=
  if http_error_status r.status then (.error r.status, 1)
  else (.ok (r.access_token, r.expires_in), 1)

/-- Stored configuration as read by the create_csv `__main__` block:
`none` models an absent key. -/
structure CsvConfig where
  token : Option String
  token_expires_at : Option Int

/-- Token acquisition of the create_csv `__main__` block: reuse the stored
token when both keys are present and it is still valid, otherwise run one
credential exchange. Returns the token to use and the number of exchange
POSTs issued. -/
def csv_main_token (cfg : CsvConfig) (now : Int) (r : TokenResponse) :
    Except Nat (Option String) × Nat :=
  match cfg.token, cfg.token_expires_at with
  | some t, some e =>
    if is_token_valid e now then (.ok (some t), 0)
    else
      match csv_get_token r with
      | (.ok p, n) => (.ok p.1, n)
      | (.error s, n) => (.error s, n)
  | _, _ =>
    match csv_get_token r with
    | (.ok p, n) => (.ok p.1, n)
    | (.error s, n) => (.error s, n)

/-!
## Helper notions used to state the theorems
-/

/-- The `id` value of a record when it is present and truthy — exactly the
records for which the derived-fetch loops issue a GET. -/
def truthyId (o : JVal) : Option JVal :=
  match o with
  | .jobj fields =>
    match lookupKV fields "id" with
    | some v => if truthy v then some v else none
    | none => none
  | _ => none

/-- The truthy ids of a record list, in list order. -/
def truthyIds (l : List JVal) : List JVal := l.filterMap truthyId

/-- The record appended for one successful dependent order-detail fetch. -/
def fetchedDetail (w : World) (idv : JVal) : JVal :=
  dataOrEmptyObj (w (.getOrderDetail idv))

/-- The record appended for one successful dependent order-item fetch. -/
def fetchedItem (w : World) (idv : JVal) : JVal :=
  dataOrEmptyObj (w (.getOrderItem idv))

/-- An upstream order record that the details loop can process without
raising: it is a dict, and if its id is truthy the dependent fetch
succeeds. -/
def orderOk (w : World) (o : JVal) : Bool :=
  match o with
  | .jobj fields =>
    match lookupKV fields "id" with
    | some v => !truthy v || is2xx (w (.getOrderDetail v)).status
    | none => true
  | _ => false

/-- An item reference that the inner items loop can process without
raising. -/
def itemOk (w : World) (item : JVal) : Bool :=
  match item with
  | .jobj fields =>
    match lookupKV fields "id" with
    | some v => !truthy v || is2xx (w (.getOrderItem v)).status
    | none => true
  | _ => false

/-- Whether the reference extraction for a detail record succeeds. -/
def refsOk (d : JVal) : Bool :=
  match orderItemRefs d with
  | .ok _ => true
  | .error _ => false

/-- The extracted item references of a detail record (empty on error). -/
def refsOf (d : JVal) : List JVal :=
  match orderItemRefs d with
  | .ok l => l
  | .error _ => []

/-- A detail record whose reference extraction and dependent item fetches
all go through. -/
def detailOk (w : World) (d : JVal) : Bool :=
  refsOk d && (refsOf d).all (itemOk w)

/-!
## Shared lemmas about the derived-fetch loops
-/

/-- When every order can be processed, the details loop returns one fetched
record per truthy id, in order, and issues exactly the matching GETs. -/
theorem OrderDetailsStream_loop_ok (w : World) :
    ∀ orders : List JVal, orders.all (orderOk w) = true →
    OrderDetailsStream_loop w orders =
      (.ok ((truthyIds orders).map (fetchedDetail w)),
       (truthyIds orders).map Request.getOrderDetail) := by
  intro orders
  induction orders with
  | nil => intro _; simp [OrderDetailsStream_loop, truthyIds]
  | cons o rest ih =>
    intro hall
    simp only [List.all_cons, Bool.and_eq_true] at hall
    obtain ⟨ho, hrest⟩ := hall
    cases o with
    | jobj fields =>
      cases hid : lookupKV fields "id" with
      | none =>
        simpa [OrderDetailsStream_loop, truthyIds, truthyId, hid] using ih hrest
      | some v =>
        cases htr : truthy v with
        | false =>
          simpa [OrderDetailsStream_loop, truthyIds, truthyId, hid, htr] using ih hrest
        | true =>
          have h2 : is2xx (w (.getOrderDetail v)).status = true := by
            simpa [orderOk, hid, htr] using ho
          simp [OrderDetailsStream_loop, truthyIds, truthyId, hid, htr,
            http_error_status_of_is2xx h2, ih hrest, fetchedDetail, Except.map]
    | jnull => simp [orderOk] at ho
    | jbool b => simp [orderOk] at ho
    | jint n => simp [orderOk] at ho
    | jstr s => simp [orderOk] at ho
    | jarr elems => simp [orderOk] at ho

/-- When every item reference can be processed, the inner items loop
returns one fetched record per truthy id, in array order, and issues
exactly the matching GETs. -/
theorem OrderItemsStream_inner_ok (w : World) :
    ∀ refs : List JVal, refs.all (itemOk w) = true →
    OrderItemsStream_inner w refs =
      (.ok ((truthyIds refs).map (fetchedItem w)),
       (truthyIds refs).map Request.getOrderItem) := by
  intro refs
  induction refs with
  | nil => intro _; simp [OrderItemsStream_inner, truthyIds]
  | cons item rest ih =>
    intro hall
    simp only [List.all_cons, Bool.and_eq_true] at hall
    obtain ⟨hi, hrest⟩ := hall
    cases item with
    | jobj fields =>
      cases hid : lookupKV fields "id" with
      | none =>
        simpa [OrderItemsStream_inner, truthyIds, truthyId, hid] using ih hrest
      | some v =>
        cases htr : truthy v with
        | false =>
          simpa [OrderItemsStream_inner, truthyIds, truthyId, hid, htr] using ih hrest
        | true =>
          have h2 : is2xx (w (.getOrderItem v)).status = true := by
            simpa [itemOk, hid, htr] using hi
          simp [OrderItemsStream_inner, truthyIds, truthyId, hid, htr,
            http_error_status_of_is2xx h2, ih hrest, fetchedItem, Except.map]
    | jnull => simp [itemOk] at hi
    | jbool b => simp [itemOk] at hi
    | jint n => simp [itemOk] at hi
    | jstr s => simp [itemOk] at hi
    | jarr elems => simp [itemOk] at hi

/-- A detail record with successful reference extraction has
`orderItemRefs` equal to its `refsOf`. -/
theorem orderItemRefs_of_refsOk (d : JVal) (h : refsOk d = true) :
    orderItemRefs d = .ok (refsOf d) := by
  unfold refsOk at h
  cases hr : orderItemRefs d with
  | ok l => simp [refsOf, hr]
  | error e => simp [hr] at h

/-- Processing a well-behaved prefix composes: the loop on `pre ++ rest`
issues the prefix GETs first and prepends the prefix records to whatever
the loop does on `rest`. -/
theorem OrderDetailsStream_loop_append (w : World) :
    ∀ pre rest : List JVal, pre.all (orderOk w) = true →
    ∀ (r1 : Except PyErr (List JVal)) (tr1 : List Request),
    OrderDetailsStream_loop w rest = (r1, tr1) →
    OrderDetailsStream_loop w (pre ++ rest) =
      (r1.map (fun ds => (truthyIds pre).map (fetchedDetail w) ++ ds),
       (truthyIds pre).map Request.getOrderDetail ++ tr1) := by
  intro pre
  induction pre with
  | nil =>
    intro rest _ r1 tr1 h
    simp only [List.nil_append, truthyIds, List.filterMap_nil, List.map_nil,
      List.nil_append, h]
    cases r1 <;> simp [Except.map]
  | cons o pres ih =>
    intro rest hall r1 tr1 h
    simp only [List.all_cons, Bool.and_eq_true] at hall
    obtain ⟨ho, hpre⟩ := hall
    cases o with
    | jobj fields =>
      cases hid : lookupKV fields "id" with
      | none =>
        simpa [OrderDetailsStream_loop, truthyIds, truthyId, hid]
          using ih rest hpre r1 tr1 h
      | some v =>
        cases htr : truthy v with
        | false =>
          simpa [OrderDetailsStream_loop, truthyIds, truthyId, hid, htr]
            using ih rest hpre r1 tr1 h
        | true =>
          have h2 : is2xx (w (.getOrderDetail v)).status = true := by
            simpa [orderOk, hid, htr] using ho
          simp only [List.cons_append, OrderDetailsStream_loop, hid, htr,
            http_error_status_of_is2xx h2, Bool.false_eq_true, if_false,
            List.append_eq]
          rw [ih rest hpre r1 tr1 h]
          cases r1 <;>
            simp [Except.map, fetchedDetail, truthyIds, truthyId, hid, htr]
    | jnull => simp [orderOk] at ho
    | jbool b => simp [orderOk] at ho
    | jint n => simp [orderOk] at ho
    | jstr s => simp [orderOk] at ho
    | jarr elems => simp [orderOk] at ho

/-- When every detail record can be processed, the outer items loop
concatenates, detail by detail in order, one fetched record per truthy
item-reference id, and issues exactly the matching GETs. -/
theorem OrderItemsStream_loop_ok (w : World) :
    ∀ details : List JVal, details.all (detailOk w) = true →
    OrderItemsStream_loop w details =
      (.ok (details.flatMap (fun d => (truthyIds (refsOf d)).map (fetchedItem w))),
       details.flatMap (fun d => (truthyIds (refsOf d)).map Request.getOrderItem)) := by
  intro details
  induction details with
  | nil => intro _; simp [OrderItemsStream_loop]
  | cons d rest ih =>
    intro hall
    simp only [List.all_cons, Bool.and_eq_true] at hall
    obtain ⟨hd, hrest⟩ := hall
    unfold detailOk at hd
    simp only [Bool.and_eq_true] at hd
    obtain ⟨hro, hri⟩ := hd
    simp [OrderItemsStream_loop, orderItemRefs_of_refsOk d hro,
      OrderItemsStream_inner_ok w _ hri, ih hrest, Except.map]

/-!
## Claims about create_csv.flatten_dict
-/

/-- C8: flatten maps nesting depth to dotted key-path depth on the
spec's example, and the empty mapping flattens to the empty mapping. -/
theorem c8_flatten_examples :
    flatten_dict (.jobj [("a", .jobj [("b", .jint 1), ("c", .jobj [("d", .jint 2)])])])
      = .ok [("a.b", .jint 1), ("a.c.d", .jint 2)] ∧
    flatten_dict (.jobj []) = .ok [] := by
  refine ⟨?_, ?_⟩ <;>
    simp [flatten_dict, flatten_items, dict_of, dict_insert, List.foldl]

/-- Boolean success test on the modelled results. -/
def isOkE {α : Type} : Except PyErr α → Bool
  | .ok _ => true
  | .error _ => false

/-- C9 counterexample: on the non-mapping root `5`, `flatten_dict` raises
AttributeError (the source calls `d.items()` unconditionally) instead of
returning the input unchanged, refuting the identity-on-non-mappings
claim. -/
theorem c9_counterexample : flatten_dict (.jint 5) = .error .attrErr := rfl

/-- C9 (amended): flatten is pure and total exactly on mapping roots; a
non-mapping root raises AttributeError rather than acting as the
identity. -/
theorem c9_flatten_total_on_mappings :
    ∀ v : JVal, isOkE (flatten_dict v) = v.isObj := by
  intro v
  cases v <;> rfl

/-!
## Claims about the derived-fetch orchestrations
-/

/-- C2 (amended: one GET per order whose id is truthy, not merely
present): after the orders fetch succeeds and is materialized, the
orchestration issues, in upstream order, exactly one dependent GET per
truthy-id order, skips the rest silently, and outputs the unwrapped
results in the same order, with the orders GET strictly first. -/
theorem c2_order_details_orchestration (w : World) (orders : List JVal)
    (hst : is2xx (w .getOrders).status = true)
    (hdata : (w .getOrders).data = some (.jarr orders))
    (hok : orders.all (orderOk w) = true) :
    OrderDetailsStream_get_records w =
      (.ok ((truthyIds orders).map (fetchedDetail w)),
       .getOrders :: (truthyIds orders).map Request.getOrderDetail) := by
  simp [OrderDetailsStream_get_records, ActiveAntsStream_get_records,
    http_error_status_of_is2xx hst, hdata, pyIter,
    OrderDetailsStream_loop_ok w orders hok]

/-- Remote API used to instantiate the order-details orchestration on the
spec's example: the orders collection holds ids 1, null, 3 and each detail
fetch succeeds with a record tagged by the requested id. -/
def c2World : World := fun r =>
  match r with
  | .getOrders =>
    ⟨200, some (.jarr [.jobj [("id", .jint 1)], .jobj [("id", .jnull)],
      .jobj [("id", .jint 3)]])⟩
  | .getOrderDetail idv => ⟨200, some (.jobj [("detail", idv)])⟩
  | _ => ⟨200, some (.jobj [])⟩

/-- Witness for C2 on the spec's example: exactly 2 dependent GETs, for
ids 1 and 3, the null-id record skipped, output order preserved. -/
theorem c2_order_details_orchestration_witness :
    OrderDetailsStream_get_records c2World =
      (.ok [.jobj [("detail", .jint 1)], .jobj [("detail", .jint 3)]],
       [.getOrders, .getOrderDetail (.jint 1), .getOrderDetail (.jint 3)]) :=
  c2_order_details_orchestration c2World
    [.jobj [("id", .jint 1)], .jobj [("id", .jnull)], .jobj [("id", .jint 3)]]
    rfl rfl rfl

/-- Remote API whose orders collection holds a single order with the
present but falsy id 0. -/
def c2cxWorld : World := fun r =>
  match r with
  | .getOrders => ⟨200, some (.jarr [.jobj [("id", .jint 0)]])⟩
  | _ => ⟨200, some (.jobj [])⟩

/-- C2 counterexample: an order whose id field is present with value 0
gets no dependent GET at all — the loop tests truthiness, not presence —
refuting the claim that every order with a present id gets exactly one
GET. -/
theorem c2_counterexample :
    lookupKV [("id", JVal.jint 0)] "id" = some (.jint 0) ∧
    OrderDetailsStream_get_records c2cxWorld = (.ok [], [.getOrders]) :=
  ⟨rfl, rfl⟩

/-- C3 (amended: one GET per referenced item whose id is truthy, not
merely present): the orchestration materializes the order_details records
— its trace comes strictly first — then walks details in fetched order
and each detail's `relationships.orderItems.data` references in array
order, issuing one GET per truthy-id reference and appending the
unwrapped results in that traversal order. -/
theorem c3_order_items_orchestration (w : World) (details : List JVal)
    (tr : List Request)
    (hdet : OrderDetailsStream_get_records w = (.ok details, tr))
    (hok : details.all (detailOk w) = true) :
    OrderItemsStream_get_records w =
      (.ok (details.flatMap (fun d => (truthyIds (refsOf d)).map (fetchedItem w))),
       tr ++ details.flatMap (fun d => (truthyIds (refsOf d)).map Request.getOrderItem)) := by
  simp [OrderItemsStream_get_records, hdet, OrderItemsStream_loop_ok w details hok]

/-- Remote API for the items witness: one order (id 1) whose detail
references items 11 and 12; each item fetch succeeds with a record tagged
by the requested id. -/
def c3World : World := fun r =>
  match r with
  | .getOrders => ⟨200, some (.jarr [.jobj [("id", .jint 1)]])⟩
  | .getOrderDetail _ =>
    ⟨200, some (.jobj [("relationships", .jobj [("orderItems", .jobj [("data",
      .jarr [.jobj [("id", .jint 11)], .jobj [("id", .jint 12)]])])])])⟩
  | _ => ⟨200, some (.jobj [])⟩

/-- Witness for C3: the details trace precedes the item GETs, and items 11
then 12 are fetched in reference-array order. -/
theorem c3_order_items_orchestration_witness :
    OrderItemsStream_get_records c3World =
      (.ok [dataOrEmptyObj (c3World (.getOrderItem (.jint 11))),
            dataOrEmptyObj (c3World (.getOrderItem (.jint 12)))],
       [.getOrders, .getOrderDetail (.jint 1),
        .getOrderItem (.jint 11), .getOrderItem (.jint 12)]) :=
  c3_order_items_orchestration c3World
    [.jobj [("relationships", .jobj [("orderItems", .jobj [("data",
      .jarr [.jobj [("id", .jint 11)], .jobj [("id", .jint 12)]])])])]]
    [.getOrders, .getOrderDetail (.jint 1)] rfl rfl

/-- Remote API whose single order detail references one item with the
present but falsy id 0. -/
def c3cxWorld : World := fun r =>
  match r with
  | .getOrders => ⟨200, some (.jarr [.jobj [("id", .jint 1)]])⟩
  | .getOrderDetail _ =>
    ⟨200, some (.jobj [("relationships", .jobj [("orderItems", .jobj [("data",
      .jarr [.jobj [("id", .jint 0)]])])])])⟩
  | _ => ⟨200, some (.jobj [])⟩

/-- C3 counterexample: an item reference whose id field is present with
value 0 gets no GET to the orderitems endpoint, refuting the claim that
every referenced item with a present id is fetched. -/
theorem c3_counterexample :
    lookupKV [("id", JVal.jint 0)] "id" = some (.jint 0) ∧
    OrderItemsStream_get_records c3cxWorld =
      (.ok [], [.getOrders, .getOrderDetail (.jint 1)]) :=
  ⟨rfl, rfl⟩

/-- C4 (amended: raised only for 4xx/5xx, the range of
`raise_for_status`): when a dependent order-detail GET returns a client-
or server-error status (400–599), an HTTPError carrying that status
aborts the loop at once: the failing request is issued exactly once,
nothing after it is fetched, and the resource yields an error instead of
any records — even though earlier dependent fetches succeeded. A
non-2xx status outside that range does not raise. -/
theorem c4_http_error_aborts (w : World) (pre post : List JVal)
    (fields : List (String × JVal)) (idv : JVal)
    (hpre : pre.all (orderOk w) = true)
    (hid : lookupKV fields "id" = some idv)
    (htr : truthy idv = true)
    (hfail : http_error_status (w (.getOrderDetail idv)).status = true) :
    OrderDetailsStream_loop w (pre ++ .jobj fields :: post) =
      (.error (.http (w (.getOrderDetail idv)).status),
       (truthyIds pre).map Request.getOrderDetail ++ [.getOrderDetail idv]) := by
  have hstep : OrderDetailsStream_loop w (.jobj fields :: post) =
      (.error (.http (w (.getOrderDetail idv)).status), [.getOrderDetail idv]) := by
    simp [OrderDetailsStream_loop, hid, htr, hfail]
  simpa [Except.map] using
    OrderDetailsStream_loop_append w pre (.jobj fields :: post) hpre _ _ hstep

/-- Remote API where the detail fetch for id 2 fails with status 500 and
everything else succeeds. -/
def c4World : World := fun r =>
  match r with
  | .getOrderDetail (.jint 2) => ⟨500, some (.jobj [])⟩
  | _ => ⟨200, some (.jobj [("ok", .jbool true)])⟩

/-- Witness for C4: with orders 1, 2, 3 and the fetch of id 2 failing, the
loop issues the GETs for 1 and 2 only and produces an error carrying 500
instead of records. -/
theorem c4_http_error_aborts_witness :
    OrderDetailsStream_loop c4World
        [.jobj [("id", .jint 1)], .jobj [("id", .jint 2)], .jobj [("id", .jint 3)]] =
      (.error (.http 500), [.getOrderDetail (.jint 1), .getOrderDetail (.jint 2)]) :=
  c4_http_error_aborts c4World [.jobj [("id", .jint 1)]] [.jobj [("id", .jint 3)]]
    [("id", .jint 2)] (.jint 2) rfl rfl rfl rfl

/-- Remote API where the dependent fetch for id 1 answers with the
non-standard status 650 and a JSON body. -/
def c4cxWorld : World := fun r =>
  match r with
  | .getOrderDetail (.jint 1) => ⟨650, some (.jobj [("odd", .jint 650)])⟩
  | _ => ⟨200, some (.jobj [])⟩

/-- C4 counterexample: the status 650 is not 2xx, yet `raise_for_status`
raises only for 400–599, so no HTTPError is raised — the loop unwraps the
body, appends it as a record and continues, refuting the claim that every
non-2xx dependent status aborts the fetch with zero output records. -/
theorem c4_counterexample :
    is2xx 650 = false ∧
    OrderDetailsStream_loop c4cxWorld [.jobj [("id", .jint 1)]] =
      (.ok [.jobj [("odd", .jint 650)]], [.getOrderDetail (.jint 1)]) :=
  ⟨rfl, rfl⟩

/-- C10: a present but falsy id (0, empty string, False, null) makes both
derived-fetch loops behave exactly as if the record were absent: no GET is
issued and nothing is appended. -/
theorem c10_falsy_id_skips (w : World) (fields : List (String × JVal)) (v : JVal)
    (hid : lookupKV fields "id" = some v) (hfalsy : truthy v = false) :
    (∀ rest : List JVal,
      OrderDetailsStream_loop w (.jobj fields :: rest) =
        OrderDetailsStream_loop w rest) ∧
    (∀ refs : List JVal,
      OrderItemsStream_inner w (.jobj fields :: refs) =
        OrderItemsStream_inner w refs) := by
  refine ⟨fun rest => ?_, fun refs => ?_⟩ <;>
    simp [OrderDetailsStream_loop, OrderItemsStream_inner, hid, hfalsy]

/-- Remote API answering every request with an empty success. -/
def c10World : World := fun _ => ⟨200, some (.jobj [])⟩

/-- Witness for C10 at the falsy id 0: prepending the id-0 record changes
neither loop's outcome. -/
theorem c10_falsy_id_skips_witness :
    OrderDetailsStream_loop c10World [.jobj [("id", .jint 0)]] =
      OrderDetailsStream_loop c10World [] ∧
    OrderItemsStream_inner c10World [.jobj [("id", .jint 0)]] =
      OrderItemsStream_inner c10World [] :=
  ⟨(c10_falsy_id_skips c10World [("id", .jint 0)] (.jint 0) rfl rfl).1 [],
   (c10_falsy_id_skips c10World [("id", .jint 0)] (.jint 0) rfl rfl).2 []⟩

/-!
## Claims about the token lifecycle
-/

/-- With a truthy cached token, any number of further calls return it
unchanged and perform no POST. -/
theorem get_token_calls_cached (resp : Nat → TokenResponse) (s : TapState)
    (h : truthyTok s.token = true) :
    ∀ n : Nat, get_token_calls resp s n = (List.replicate n (.ok s.token), s) := by
  intro n
  induction n with
  | zero => simp [get_token_calls]
  | succ m ih => simp [get_token_calls, get_token, h, ih, List.replicate_succ]

/-- C1 (amended: requires the exchanged token to be truthy): once the
first call performs a successful exchange whose access_token is a
non-empty string, every later call in the sequence returns that same
cached value and the POST count stays at one. A falsy cached value (empty
string or a missing field) fails the `if not _token` test and would
re-exchange. -/
theorem c1_get_token_idempotent (resp : Nat → TokenResponse) (t : String) (n : Nat)
    (hst : is2xx (resp 0).status = true)
    (htok : (resp 0).access_token = some t)
    (hne : (t == "") = false) :
    get_token_calls resp ⟨none, 0⟩ (n + 1) =
      (List.replicate (n + 1) (.ok (some t)), ⟨some t, 1⟩) := by
  have hfirst : get_token resp ⟨none, 0⟩ = (.ok (some t), ⟨some t, 1⟩) := by
    simp [get_token, truthyTok, http_error_status_of_is2xx hst, htok]
  have htr : truthyTok (some t) = true := by simp [truthyTok, hne]
  simp [get_token_calls, hfirst,
    get_token_calls_cached resp ⟨some t, 1⟩ htr n, List.replicate_succ]

/-- Token endpoint answering every POST with a 200 and the token "tok". -/
def c1Resp : Nat → TokenResponse := fun _ => ⟨200, some "tok", some 3600⟩

/-- Witness for C1: after the first successful exchange, three calls all
return "tok" and only one POST is ever made. -/
theorem c1_get_token_idempotent_witness :
    get_token_calls c1Resp ⟨none, 0⟩ 3 =
      (List.replicate 3 (.ok (some "tok")), ⟨some "tok", 1⟩) :=
  c1_get_token_idempotent c1Resp "tok" 2 rfl rfl rfl

/-- Token endpoint that answers the first POST with status 200 and the
empty-string token, later POSTs with the token "b". -/
def c1cxResp : Nat → TokenResponse := fun i =>
  if i == 0 then ⟨200, some "", none⟩ else ⟨200, some "b", none⟩

/-- C1 counterexample: the first call is a successful exchange (status
200) caching the token "", yet the second call performs another POST
(count reaches 2) and returns a different value — `if not _token` treats
the cached empty string as absent, refuting idempotence as stated. -/
theorem c1_counterexample :
    get_token_calls c1cxResp ⟨none, 0⟩ 2 =
      ([.ok (some ""), .ok (some "b")], ⟨some "b", 2⟩) :=
  rfl

/-- C5 (amended: raising is confined to 4xx/5xx, and a missing field is a
success): with no truthy cached token, an exchange answered with a
client- or server-error status (400–599, the range of `raise_for_status`)
raises an HTTPError carrying the status and leaves the cache unchanged;
every other status — 2xx, but also 3xx and 600-and-above — returns the
body's access_token as a success even when the field is absent: the
missing value `none` is cached and returned, not turned into an error. -/
theorem c5_get_token_errors (resp : Nat → TokenResponse) (s : TapState)
    (hcold : truthyTok s.token = false) :
    (http_error_status (resp s.posts).status = true →
      get_token resp s = (.error (resp s.posts).status, ⟨s.token, s.posts + 1⟩)) ∧
    (http_error_status (resp s.posts).status = false →
      get_token resp s =
        (.ok (resp s.posts).access_token, ⟨(resp s.posts).access_token, s.posts + 1⟩)) := by
  refine ⟨fun hbad => ?_, fun hok => ?_⟩
  · simp [get_token, hcold, hbad]
  · simp [get_token, hcold, hok]

/-- Witness for C5: a 401 exchange raises carrying 401. -/
theorem c5_get_token_errors_witness :
    get_token (fun _ => ⟨401, none, none⟩) ⟨none, 0⟩ = (.error 401, ⟨none, 1⟩) :=
  (c5_get_token_errors (fun _ => ⟨401, none, none⟩) ⟨none, 0⟩ rfl).1 rfl

/-- C5 counterexample: a 200 exchange whose body lacks access_token makes
get_token return the missing value as a success — no AuthError is raised,
refuting the claim that a 2xx response without the field fails. -/
theorem c5_counterexample :
    get_token (fun _ => ⟨200, none, none⟩) ⟨none, 0⟩ = (.ok none, ⟨none, 1⟩) :=
  rfl

/-- C6: in the expiry-aware create_csv flow, a stored token whose
expiration instant has passed makes the next acquisition perform exactly
one credential-exchange POST — one refresh, not zero and not more. -/
theorem c6_expired_token_one_refresh (cfg : CsvConfig) (now : Int)
    (r : TokenResponse) (t : String) (e : Int)
    (htok : cfg.token = some t) (hexp : cfg.token_expires_at = some e)
    (hpast : e ≤ now) :
    (csv_main_token cfg now r).2 = 1 := by
  have hv : is_token_valid e now = false := by
    simp only [is_token_valid, decide_eq_false_iff_not, not_lt]
    exact hpast
  cases hr : csv_get_token r with
  | mk res n =>
    have hn : n = 1 := by
      unfold csv_get_token at hr
      rcases h2 : http_error_status r.status <;> simp [h2] at hr <;> omega
    cases res <;> simp [csv_main_token, htok, hexp, hv, hr, hn]

/-- Witness for C6: stored token expired at 100, now 200 — exactly one
exchange POST happens. -/
theorem c6_expired_token_one_refresh_witness :
    (csv_main_token ⟨some "old", some 100⟩ 200 ⟨200, some "new", some 3600⟩).2 = 1 :=
  c6_expired_token_one_refresh ⟨some "old", some 100⟩ 200
    ⟨200, some "new", some 3600⟩ "old" 100 rfl rfl (by decide)

/-!
## Claim about the data-envelope unwrapping
-/

/-- C7 (amended: an explicit null is passed through, not emptied): on a
2xx response, an absent data key unwraps to the empty list for the list
fetch and to the empty mapping for the single-entity unwrap, while a
present-but-null data key is returned as the null value itself — in no
case does the unwrapping raise. -/
theorem c7_data_unwrap (w : World) (req : Request)
    (h2 : is2xx (w req).status = true) :
    ((w req).data = none →
      ActiveAntsStream_get_records w req = .ok (.jarr []) ∧
      dataOrEmptyObj (w req) = .jobj []) ∧
    ((w req).data = some .jnull →
      ActiveAntsStream_get_records w req = .ok .jnull) := by
  refine ⟨fun habs => ?_, fun hnull => ?_⟩
  · simp [ActiveAntsStream_get_records, dataOrEmptyObj,
      http_error_status_of_is2xx h2, habs]
  · simp [ActiveAntsStream_get_records, http_error_status_of_is2xx h2, hnull]

/-- Remote API answering every request with a 200 whose body has no data
key. -/
def c7World : World := fun _ => ⟨200, none⟩

/-- Witness for C7: the absent-data case yields the empty list and the
empty mapping. -/
theorem c7_data_unwrap_witness :
    ActiveAntsStream_get_records c7World .getOrders = .ok (.jarr []) ∧
    dataOrEmptyObj (c7World .getOrders) = .jobj [] :=
  (c7_data_unwrap c7World .getOrders rfl).1 rfl

/-- Remote API answering every request with a 200 whose body is exactly
the mapping with data explicitly null. -/
def c7cxWorld : World := fun _ => ⟨200, some .jnull⟩

/-- C7 counterexample: on a body whose data key is explicitly null, the
list fetch returns the null value — Python `.get` only applies its
default to an absent key — not the empty list the claim requires. -/
theorem c7_counterexample :
    ActiveAntsStream_get_records c7cxWorld .getOrders = .ok .jnull ∧
    ActiveAntsStream_get_records c7cxWorld .getOrders ≠ .ok (.jarr []) := by
  refine ⟨rfl, fun h => ?_⟩
  rw [show ActiveAntsStream_get_records c7cxWorld .getOrders = .ok .jnull from rfl] at h
  simp at h
